import Mathlib

/-!
Verification development for the studyreel2 signaling server and its chat relay.

The server side (src/unnamed/part_002, second copy of index.ts, and
src/stream-server/src/server/mediasoup.ts) keeps several JavaScript Map
objects: producers, dataProducers, transports, socketToTransport,
socketToStreamId inside class MediasoupServer, plus socketToTransportId at
the socket.io layer.  We embed each JavaScript Map as an association list
over String keys, with get / set / delete mirroring Map semantics (set
replaces in place, keys are unique in every state the program builds).

Engine calls (mediasoup router and transport operations) are external and
asynchronous; each handler takes the outcome of the engine calls it makes
as explicit parameters (an Except value, or the sctp state of the created
transport), and the handler body is a direct translation of the source
control flow around those calls.
-/

namespace StudyReel

/-- Association-list embedding of a JavaScript Map with String keys. -/
abbrev SMap (α : Type) := List (String × α)

/-- Map.get: first binding of the key, if any. -/
def sget {α : Type} : SMap α → String → Option α
  | [], _ => none
  | (k', v) :: rest, k => if k' = k then some v else sget rest k

/-- Map.set: replace the binding in place if the key exists, else append. -/
def sset {α : Type} : SMap α → String → α → SMap α
  | [], k, v => [(k, v)]
  | (k', v') :: rest, k, v =>
      if k' = k then (k, v) :: rest else (k', v') :: sset rest k v

/-- Map.delete: remove every binding of the key. -/
def sdel {α : Type} : SMap α → String → SMap α
  | [], _ => []
  | (k', v') :: rest, k =>
      if k' = k then sdel rest k else (k', v') :: sdel rest k

theorem sget_sdel_same {α : Type} (m : SMap α) (k : String) :
    sget (sdel m k) k = none := by
  induction m with
  | nil => rfl
  | cons kv rest ih =>
      by_cases h : kv.1 = k
      · simpa [sdel, h] using ih
      · simp [sdel, sget, h, ih]

theorem sdel_sdel_same {α : Type} (m : SMap α) (k : String) :
    sdel (sdel m k) k = sdel m k := by
  induction m with
  | nil => rfl
  | cons kv rest ih =>
      by_cases h : kv.1 = k
      · simpa [sdel, h] using ih
      · simp [sdel, h, ih]

/-- ChatMessage from src/unnamed/part_000 (types.ts): sender, content,
timestamp in milliseconds. -/
structure ChatMessage where
  sender : String
  content : String
  timestamp : Nat
deriving DecidableEq

/-- A WebRTC transport as the session directory sees it: its engine id and
the sctpState reported by the engine (none when SCTP is unavailable).  The
server always requests enableSctp, but availability is engine behaviour. -/
structure Transport where
  id : String
  sctpState : Option String
deriving DecidableEq

/-- A media producer entry: engine id, kind, owning transport, and the
appData.socketId field that MediasoupServer.cleanup inspects.  The produce
path never sets appData on the producer, so produce stores none. -/
structure Producer where
  id : String
  kind : String
  transportId : String
  appDataSocketId : Option String
deriving DecidableEq

/-- A data producer entry: engine id, owning transport, label, protocol,
and whether setupDataProducerListeners attached the close listeners that
delete the map entry keyed by the original engine id.  The automatic
creation path inside the produce handler never attaches them. -/
structure DataProducer where
  id : String
  transportId : String
  label : String
  protocol : String
  hasCloseListeners : Bool
deriving DecidableEq

/-- The mutable session state: the five maps of class MediasoupServer plus
the socketToTransportId map of the socket.io layer (index.ts). -/
structure ServerState where
  producers : SMap Producer
  dataProducers : SMap DataProducer
  transports : SMap Transport
  socketToTransport : SMap String
  socketToStreamId : SMap String
  socketToTransportId : SMap String
deriving DecidableEq

def ServerState.initial : ServerState :=
  { producers := [], dataProducers := [], transports := [],
    socketToTransport := [], socketToStreamId := [], socketToTransportId := [] }

/-- Response payloads the socket handlers pass to their callbacks. -/
inductive Response where
  | transportInfo (id : String) (sctp : Bool)
  | success
  | producedId (id : String)
  | consumeOk (id : String) (producerId : String) (kind : String)
  | dataConsumeOk (id : String) (dataProducerId : String) (label : String) (protocol : String)
  | fallback
  | error (msg : String)
deriving DecidableEq

/-- Server-pushed notifications on the control channel. -/
inductive Notif where
  | newProducer (producerId : String) (kind : String)
  | producerClosed (producerId : String)
deriving DecidableEq

/-- The two delivery actions of the chatMessage handler, in emission
order: the socket.io broadcast to every connection, and a send through the
data producer of the named chat key. -/
inductive ChatAction where
  | broadcast (streamId : String) (message : ChatMessage)
  | dataSend (chatKey : String) (payload : String)
deriving DecidableEq

/-- Stand-in for JSON.stringify on a chat message: an injective plain
serialization, enough to state that both chat paths carry the same bytes. -/
def serializeMessage (m : ChatMessage) : String :=
  m.sender ++ "|" ++ m.content ++ "|" ++ toString m.timestamp

/-- The endsWith check of the handlers, expressed on the character lists
of the strings so that it evaluates by kernel reduction. -/
def strEndsWith (s suffixStr : String) : Bool :=
  decide (suffixStr.data.length ≤ s.data.length) &&
    decide (s.data.drop (s.data.length - suffixStr.data.length) = suffixStr.data)

theorem strEndsWith_append (s t : String) : strEndsWith (s ++ t) t = true := by
  simp [strEndsWith, String.data_append, Nat.add_sub_cancel, List.drop_left]

/-- MediasoupServer.createWebRtcTransport, success path: register the new
transport and overwrite the socketToTransport slot of the socket.  The
engine-assigned id and the sctp state of the created transport are inputs. -/
def createWebRtcTransport (st : ServerState) (socketId newTid : String)
    (sctp : Option String) : ServerState :=
  { st with
    transports := sset st.transports newTid { id := newTid, sctpState := sctp },
    socketToTransport := sset st.socketToTransport socketId newTid }

/-- The createProducerTransport socket handler (index.ts): create the
transport, then also record it in the socket.io level socketToTransportId
map.  engineOk is the outcome of the engine call. -/
def handleCreateProducerTransport (st : ServerState) (socketId newTid : String)
    (sctp : Option String) (engineOk : Bool) : ServerState × Response :=
  if engineOk then
    let st1 := createWebRtcTransport st socketId newTid sctp
    ({ st1 with socketToTransportId := sset st1.socketToTransportId socketId newTid },
     .transportInfo newTid sctp.isSome)
  else (st, .error "Failed to create transport")

/-- The createConsumerTransport socket handler (index.ts, lines 403 to
415): creates a transport for the same socket and stores its id in the
same single socketToTransportId slot, overwriting any previous value. -/
def handleCreateConsumerTransport (st : ServerState) (socketId newTid : String)
    (sctp : Option String) (engineOk : Bool) : ServerState × Response :=
  if engineOk then
    let st1 := createWebRtcTransport st socketId newTid sctp
    ({ st1 with socketToTransportId := sset st1.socketToTransportId socketId newTid },
     .transportInfo newTid sctp.isSome)
  else (st, .error "Failed to create consumer transport")

/-- MediasoupServer.connectTransport: resolve via the socketToTransport
map and return the id of the transport the DTLS connect is applied to. -/
def connectTransport (st : ServerState) (socketId : String) : Except String String :=
  match sget st.socketToTransport socketId with
  | none => .error ("No transport found for socket " ++ socketId)
  | some tid =>
      match sget st.transports tid with
      | none => .error ("Transport " ++ tid ++ " not found")
      | some _ => .ok tid

/-- The connectProducerTransport socket handler: check the socket.io map,
then delegate to connectTransport.  The third component reports which
transport the DTLS parameters were applied to, none if resolution failed;
connectOk is the outcome of the engine connect call. -/
def handleConnectProducerTransport (st : ServerState) (socketId : String)
    (connectOk : Bool) : ServerState × Response × Option String :=
  match sget st.socketToTransportId socketId with
  | none => (st, .error ("No transport found for socket " ++ socketId), none)
  | some _ =>
      match connectTransport st socketId with
      | .error e => (st, .error e, none)
      | .ok tid =>
          if connectOk then (st, .success, some tid)
          else (st, .error "Failed to connect transport", some tid)

/-- MediasoupServer.produce: resolve the transport of the socket, create
the producer (engine outcome produceRes carries the new producer id),
register it in the producers map with appData left empty, and record the
socket to stream association. -/
def produce (st : ServerState) (socketId kind : String)
    (produceRes : Except String String) : ServerState × Except String String :=
  match sget st.socketToTransport socketId with
  | none => (st, .error ("No transport found for socket " ++ socketId))
  | some tid =>
      match sget st.transports tid with
      | none => (st, .error ("Transport " ++ tid ++ " not found"))
      | some _ =>
          match produceRes with
          | .error e => (st, .error e)
          | .ok newPid =>
              ({ st with
                  producers := sset st.producers newPid
                    { id := newPid, kind := kind, transportId := tid,
                      appDataSocketId := none },
                  socketToStreamId := sset st.socketToStreamId socketId newPid },
               .ok newPid)

/-- The produce socket handler (index.ts lines 333 to 401): resolve the
transport, produce, record the stream id again, and when the kind is
video eagerly attempt to create a companion DataProducer on the same
transport registered under the chat key producerId-data.  That attempt is
best effort: a missing transport, SCTP unavailability or a produceData
failure (dataRes) is logged and swallowed.  The automatic creation path
does not call setupDataProducerListeners, so the registered entry has no
close listeners.  Finally newProducer is broadcast and the id returned. -/
def handleProduce (st : ServerState) (socketId kind : String)
    (produceRes : Except String String) (dataRes : Except String String) :
    ServerState × Response × List Notif :=
  match sget st.socketToTransportId socketId with
  | none => (st, .error ("No transport found for socket " ++ socketId), [])
  | some transportId =>
      match produce st socketId kind produceRes with
      | (st1, .error e) => (st1, .error e, [])
      | (st1, .ok newPid) =>
          let st2 := { st1 with
            socketToStreamId := sset st1.socketToStreamId socketId newPid }
          let st3 :=
            if kind = "video" then
              match sget st2.transports transportId with
              | none => st2
              | some tr =>
                  match tr.sctpState with
                  | none => st2
                  | some _ =>
                      match dataRes with
                      | .error _ => st2
                      | .ok engineDataId =>
                          let dp : DataProducer :=
                            { id := engineDataId, transportId := transportId,
                              label := "chat", protocol := "json",
                              hasCloseListeners := false }
                          let dps := sset st2.dataProducers (newPid ++ "-data") dp
                          { st2 with dataProducers := dps }
            else st2
          (st3, .producedId newPid, [.newProducer newPid kind])

/-- MediasoupServer.consume: transport lookup, then producer lookup, then
the router canConsume check, then the engine consume call (consumeRes
carries the new consumer id).  Nothing is stored in any map. -/
def consume (st : ServerState) (transportId producerId : String)
    (canCons : Bool) (consumeRes : Except String String) :
    Except String (String × String × String) :=
  match sget st.transports transportId with
  | none => .error ("Transport " ++ transportId ++ " not found")
  | some _ =>
      match sget st.producers producerId with
      | none => .error ("Producer " ++ producerId ++ " not found")
      | some p =>
          if canCons then
            match consumeRes with
            | .error e => .error e
            | .ok newCid => .ok (newCid, p.id, p.kind)
          else .error "Cannot consume"

/-- The consume socket handler: delegate and translate the thrown error
into an error payload for the callback. -/
def handleConsume (st : ServerState) (transportId producerId : String)
    (canCons : Bool) (consumeRes : Except String String) : ServerState × Response :=
  match consume st transportId producerId canCons consumeRes with
  | .error e => (st, .error e)
  | .ok (cid, pid, kind) => (st, .consumeOk cid pid kind)

/-- MediasoupServer.getProducers: the (id, kind) snapshot of the values of
the producers map. -/
def getProducers (st : ServerState) : List (String × String) :=
  st.producers.map (fun kv => (kv.2.id, kv.2.kind))

/-- The consumeData socket handler (index.ts lines 505 to 573): resolve
the transport of the requesting socket, look the requested id up in the
dataProducers map; when absent, answer with the fallback payload if the id
ends in -data, otherwise with an error payload; when present, create the
data consumer (engine outcome consumeDataRes).  No map is modified. -/
def handleConsumeData (st : ServerState) (socketId dataProducerId : String)
    (consumeDataRes : Except String String) : ServerState × Response :=
  match sget st.socketToTransportId socketId with
  | none => (st, .error ("No transport found for socket " ++ socketId))
  | some transportId =>
      match sget st.transports transportId with
      | none => (st, .error ("Transport " ++ transportId ++ " not found"))
      | some _ =>
          match sget st.dataProducers dataProducerId with
          | none =>
              if strEndsWith dataProducerId "-data" then (st, .fallback)
              else (st, .error ("Data producer " ++ dataProducerId ++ " not found"))
          | some dp =>
              match consumeDataRes with
              | .error e => (st, .error e)
              | .ok newDcId => (st, .dataConsumeOk newDcId dp.id dp.label dp.protocol)

/-- The chatMessage socket handler (index.ts lines 575 to 608): first and
unconditionally an io.emit broadcast of the message tagged with the stream
id, then, if a data producer is registered under the chat key
streamId-data, a best effort send of the serialized message through it;
a failure of that send (dataSendOk false) is caught and ignored. -/
def handleChatMessage (st : ServerState) (streamId : String) (message : ChatMessage)
    (dataSendOk : Bool) : List ChatAction :=
  ChatAction.broadcast streamId message ::
    (match sget st.dataProducers (streamId ++ "-data") with
     | some _ =>
         if dataSendOk then
           [ChatAction.dataSend (streamId ++ "-data") (serializeMessage message)]
         else []
     | none => [])

/-- Engine ids of the media producer objects owned by a transport.
Closing the transport closes each of them and fires the transportclose
listener registered in produce, which deletes the producers-map key equal
to the producer engine id. -/
def closedProducerIds (m : SMap Producer) (tid : String) : List String :=
  (m.filter (fun kv => kv.2.transportId == tid)).map (fun kv => kv.2.id)

/-- Engine ids of the data producer objects owned by a transport that had
close listeners attached by setupDataProducerListeners; only those delete
a dataProducers-map key (the key equal to their original engine id). -/
def closedDataProducerIds (m : SMap DataProducer) (tid : String) : List String :=
  (m.filter (fun kv => kv.2.transportId == tid && kv.2.hasCloseListeners)).map
    (fun kv => kv.2.id)

/-- Effect on the maps of transport.close(): the close listeners of the
producers and data producers owned by the transport run, each deleting the
map key equal to its own engine id. -/
def closeTransportCascade (st : ServerState) (tid : String) : ServerState :=
  { st with
    producers := st.producers.filter
      (fun kv => !(closedProducerIds st.producers tid).contains kv.1),
    dataProducers := st.dataProducers.filter
      (fun kv => !(closedDataProducerIds st.dataProducers tid).contains kv.1) }

/-- First statement of MediasoupServer.cleanup: drop the stream id slot. -/
def cleanupStreamId (st : ServerState) (socketId : String) : ServerState :=
  { st with socketToStreamId := sdel st.socketToStreamId socketId }

/-- Middle part of MediasoupServer.cleanup: when the socket has a
transport slot, close that transport (firing the close cascade) and delete
it from the transports map, then drop the slot. -/
def cleanupTransport (st : ServerState) (socketId : String) : ServerState :=
  match sget st.socketToTransport socketId with
  | none => st
  | some tid =>
      match sget st.transports tid with
      | none => { st with socketToTransport := sdel st.socketToTransport socketId }
      | some _ =>
          let st2 := closeTransportCascade st tid
          { st2 with transports := sdel st2.transports tid,
                     socketToTransport := sdel st2.socketToTransport socketId }

/-- Keep predicate of the final cleanup loop: a producers-map entry
survives unless its appData.socketId matches the disconnecting socket or
its key equals the engine id of a matched (hence closed) producer. -/
def producerLoopKeep (producersMap : SMap Producer) (socketId : String)
    (kv : String × Producer) : Bool :=
  !(kv.2.appDataSocketId == some socketId) &&
    !(((producersMap.filter (fun e => e.2.appDataSocketId == some socketId)).map
        (fun e => e.2.id)).contains kv.1)

/-- Final loop of MediasoupServer.cleanup: close and delete every producer
whose appData.socketId equals the socket (closing such a producer also
fires its observer close listener, deleting the key equal to its id). -/
def cleanupProducerLoop (st : ServerState) (socketId : String) : ServerState :=
  { st with producers := st.producers.filter (producerLoopKeep st.producers socketId) }

/-- MediasoupServer.cleanup, in source order. -/
def cleanup (st : ServerState) (socketId : String) : ServerState :=
  cleanupProducerLoop (cleanupTransport (cleanupStreamId st socketId) socketId) socketId

/-- The disconnect socket handler: delete the socket.io level transport
slot, then run cleanup.  It pushes no notification of any kind. -/
def handleDisconnect (st : ServerState) (socketId : String) : ServerState × List Notif :=
  let st1 := { st with socketToTransportId := sdel st.socketToTransportId socketId }
  (cleanup st1 socketId, [])

/-- Publisher client, App.tsx handleSendMessage: send the message through
the service and append it to the local message list. -/
def handleSendMessage (messages : List ChatMessage) (m : ChatMessage) : List ChatMessage :=
  messages ++ [m]

/-- Publisher client, WebRTCService broadcastChatMessage listener (lines
64 to 70 of WebRTCService.ts) composed with the App onChatMessage
callback: every broadcast message is appended to the local list, with no
stream filter and no duplicate suppression. -/
def onBroadcastChatMessage (messages : List ChatMessage) (m : ChatMessage) : List ChatMessage :=
  messages ++ [m]

/-- Viewer client state (StreamViewer.tsx): local messages and the
isChatConnected flag gating the chat input. -/
structure ViewerState where
  messages : List ChatMessage
  isChatConnected : Bool
deriving DecidableEq

/-- StreamViewer.setupDataConsumer, effect of the consumeData response on
the viewer state: the fallback payload marks chat connected and proceeds
without a data consumer; an error is caught and also falls back to the
socket.io path, marking chat connected; a successful data consumer payload
leaves the flag to the later open event of the channel. -/
def setupDataConsumerApply (vs : ViewerState) (r : Response) : ViewerState :=
  match r with
  | .fallback => { vs with isChatConnected := true }
  | .error _ => { vs with isChatConnected := true }
  | _ => vs

/-- StreamViewer broadcastChatMessage listener (lines 90 to 96): append
the message only when its stream id matches the viewed stream. -/
def viewerOnBroadcast (vs : ViewerState) (viewerStreamId streamId : String)
    (m : ChatMessage) : ViewerState :=
  if streamId = viewerStreamId then { vs with messages := vs.messages ++ [m] }
  else vs

/-- StreamViewer.sendMessage: emit chatMessage with the viewed stream id
over the socket and append the message locally. -/
def viewerSendMessage (vs : ViewerState) (viewerStreamId : String)
    (m : ChatMessage) : ViewerState × (String × ChatMessage) :=
  ({ vs with messages := vs.messages ++ [m] }, (viewerStreamId, m))

/-! Concrete runs of the embedded handlers, used by counterexamples,
failing-input evaluations and witnesses. -/

/-- Socket a creates its publish transport T1 (SCTP available). -/
def stA1 : ServerState :=
  (handleCreateProducerTransport ServerState.initial "a" "T1" (some "new") true).1

/-- Socket a produces video P1; the companion data producer D1 is
registered under chat key P1-data. -/
def stA2 : ServerState :=
  (handleProduce stA1 "a" "video" (Except.ok "P1") (Except.ok "D1")).1

/-- Socket a disconnects. -/
def stA3 : ServerState := (handleDisconnect stA2 "a").1

/-- Socket c creates its publish transport T1, then a subscribe transport
T2 through createConsumerTransport. -/
def stC1 : ServerState :=
  (handleCreateProducerTransport ServerState.initial "c" "T1" (some "new") true).1

def stC2 : ServerState :=
  (handleCreateConsumerTransport stC1 "c" "T2" (some "new") true).1

/-! Helper lemmas about the cleanup cascade. -/

theorem closeTransportCascade_transports (st : ServerState) (tid : String) :
    (closeTransportCascade st tid).transports = st.transports := rfl

theorem cleanupStreamId_producers (st : ServerState) (c : String) :
    (cleanupStreamId st c).producers = st.producers := rfl

theorem cleanupStreamId_dataProducers (st : ServerState) (c : String) :
    (cleanupStreamId st c).dataProducers = st.dataProducers := rfl

theorem cleanupStreamId_transports (st : ServerState) (c : String) :
    (cleanupStreamId st c).transports = st.transports := rfl

theorem cleanupStreamId_socketToTransport (st : ServerState) (c : String) :
    (cleanupStreamId st c).socketToTransport = st.socketToTransport := rfl

theorem cleanupStreamId_socketToTransportId (st : ServerState) (c : String) :
    (cleanupStreamId st c).socketToTransportId = st.socketToTransportId := rfl

theorem cleanupProducerLoop_dataProducers (st : ServerState) (c : String) :
    (cleanupProducerLoop st c).dataProducers = st.dataProducers := rfl

theorem cleanupProducerLoop_transports (st : ServerState) (c : String) :
    (cleanupProducerLoop st c).transports = st.transports := rfl

theorem cleanupProducerLoop_socketToTransport (st : ServerState) (c : String) :
    (cleanupProducerLoop st c).socketToTransport = st.socketToTransport := rfl

theorem cleanupProducerLoop_socketToStreamId (st : ServerState) (c : String) :
    (cleanupProducerLoop st c).socketToStreamId = st.socketToStreamId := rfl

theorem cleanupProducerLoop_socketToTransportId (st : ServerState) (c : String) :
    (cleanupProducerLoop st c).socketToTransportId = st.socketToTransportId := rfl

theorem cleanupTransport_socketToStreamId (st : ServerState) (c : String) :
    (cleanupTransport st c).socketToStreamId = st.socketToStreamId := by
  unfold cleanupTransport
  split
  · rfl
  · split <;> rfl

theorem cleanupTransport_socketToTransportId (st : ServerState) (c : String) :
    (cleanupTransport st c).socketToTransportId = st.socketToTransportId := by
  unfold cleanupTransport
  split
  · rfl
  · split <;> rfl

theorem sget_cleanupTransport_socketToTransport (st : ServerState) (c : String) :
    sget (cleanupTransport st c).socketToTransport c = none := by
  unfold cleanupTransport
  split
  · next h => exact h
  · split
    · exact sget_sdel_same st.socketToTransport c
    · exact sget_sdel_same st.socketToTransport c

theorem sget_cleanup_socketToTransport (st : ServerState) (c : String) :
    sget (cleanup st c).socketToTransport c = none := by
  unfold cleanup
  rw [cleanupProducerLoop_socketToTransport]
  exact sget_cleanupTransport_socketToTransport (cleanupStreamId st c) c

theorem cleanup_socketToStreamId (st : ServerState) (c : String) :
    (cleanup st c).socketToStreamId = sdel st.socketToStreamId c := by
  unfold cleanup
  rw [cleanupProducerLoop_socketToStreamId, cleanupTransport_socketToStreamId]
  rfl

theorem cleanup_socketToTransportId (st : ServerState) (c : String) :
    (cleanup st c).socketToTransportId = st.socketToTransportId := by
  unfold cleanup
  rw [cleanupProducerLoop_socketToTransportId, cleanupTransport_socketToTransportId]
  rfl

theorem cleanupProducerLoop_no_match (st : ServerState) (c : String) :
    ∀ kv ∈ (cleanupProducerLoop st c).producers,
      (kv.2.appDataSocketId == some c) = false := by
  intro kv hkv
  have hmem : kv ∈ st.producers.filter (producerLoopKeep st.producers c) := hkv
  have h := (List.mem_filter.mp hmem).2
  unfold producerLoopKeep at h
  simp only [Bool.and_eq_true, Bool.not_eq_true'] at h
  exact h.1

theorem cleanupProducerLoop_eq_self (st : ServerState) (c : String)
    (h : ∀ kv ∈ st.producers, (kv.2.appDataSocketId == some c) = false) :
    cleanupProducerLoop st c = st := by
  unfold cleanupProducerLoop
  have hfull : st.producers.filter (producerLoopKeep st.producers c) = st.producers := by
    apply List.filter_eq_self.mpr
    intro kv hkv
    have hnil : st.producers.filter (fun e => e.2.appDataSocketId == some c) = [] := by
      apply List.filter_eq_nil_iff.mpr
      intro e he
      simp [h e he]
    unfold producerLoopKeep
    rw [hnil]
    simp [h kv hkv]
  rw [hfull]

theorem sget_sset_same {α : Type} (m : SMap α) (k : String) (v : α) :
    sget (sset m k v) k = some v := by
  induction m with
  | nil => simp [sset, sget]
  | cons kv rest ih =>
      by_cases h : kv.1 = k
      · simp [sset, h, sget]
      · simp [sset, sget, h, ih]

theorem sget_cleanupTransport_transports (st : ServerState) (c tid : String)
    (h1 : sget st.socketToTransport c = some tid) :
    sget (cleanupTransport st c).transports tid = none := by
  unfold cleanupTransport
  rw [h1]
  dsimp only
  cases h2 : sget st.transports tid with
  | none => exact h2
  | some tr => exact sget_sdel_same st.transports tid

theorem cleanupTransport_producers_off (st : ServerState) (c tid : String)
    (hkeys : ∀ kv ∈ st.producers, kv.1 = kv.2.id)
    (h1 : sget st.socketToTransport c = some tid)
    (h2 : sget st.transports tid ≠ none) :
    ∀ kv ∈ (cleanupTransport st c).producers, kv.2.transportId ≠ tid := by
  unfold cleanupTransport
  rw [h1]
  dsimp only
  cases h3 : sget st.transports tid with
  | none => exact absurd h3 h2
  | some tr =>
      intro kv hkv hcontra
      have hkv2 : kv ∈ st.producers.filter
          (fun e => !(closedProducerIds st.producers tid).contains e.1) := hkv
      obtain ⟨hmem, hkeep⟩ := List.mem_filter.mp hkv2
      have hid : kv.1 = kv.2.id := hkeys kv hmem
      have hin : kv.2.id ∈ closedProducerIds st.producers tid := by
        unfold closedProducerIds
        refine List.mem_map.mpr ⟨kv, List.mem_filter.mpr ⟨hmem, ?_⟩, rfl⟩
        simp [hcontra]
      rw [Bool.not_eq_true'] at hkeep
      rw [hid] at hkeep
      simp at hkeep
      exact hkeep hin

theorem cleanupTransport_dataProducers_eq (st : ServerState) (c : String)
    (hdp : ∀ kv ∈ st.dataProducers, kv.2.hasCloseListeners = false) :
    (cleanupTransport st c).dataProducers = st.dataProducers := by
  unfold cleanupTransport
  split
  · rfl
  · next tid h =>
      split
      · rfl
      · next tr h2 =>
          show (closeTransportCascade st tid).dataProducers = st.dataProducers
          unfold closeTransportCascade
          have hnil : closedDataProducerIds st.dataProducers tid = [] := by
            unfold closedDataProducerIds
            have : st.dataProducers.filter
                (fun kv => kv.2.transportId == tid && kv.2.hasCloseListeners) = [] := by
              apply List.filter_eq_nil_iff.mpr
              intro kv hkv
              simp [hdp kv hkv]
            rw [this]
            rfl
          rw [hnil]
          simp

theorem cleanup_transports_none (st : ServerState) (c tid : String)
    (h1 : sget st.socketToTransport c = some tid) :
    sget (cleanup st c).transports tid = none := by
  unfold cleanup
  rw [cleanupProducerLoop_transports]
  exact sget_cleanupTransport_transports (cleanupStreamId st c) c tid h1

theorem cleanup_producers_off (st : ServerState) (c tid : String)
    (hkeys : ∀ kv ∈ st.producers, kv.1 = kv.2.id)
    (h1 : sget st.socketToTransport c = some tid)
    (h2 : sget st.transports tid ≠ none) :
    ∀ kv ∈ (cleanup st c).producers, kv.2.transportId ≠ tid := by
  intro kv hkv
  have hkv2 : kv ∈ (cleanupTransport (cleanupStreamId st c) c).producers := by
    have hf : kv ∈ (cleanupTransport (cleanupStreamId st c) c).producers.filter
        (producerLoopKeep (cleanupTransport (cleanupStreamId st c) c).producers c) := hkv
    exact (List.mem_filter.mp hf).1
  exact cleanupTransport_producers_off (cleanupStreamId st c) c tid hkeys h1 h2 kv hkv2

theorem cleanup_dataProducers_eq (st : ServerState) (c : String)
    (hdp : ∀ kv ∈ st.dataProducers, kv.2.hasCloseListeners = false) :
    (cleanup st c).dataProducers = st.dataProducers := by
  unfold cleanup
  rw [cleanupProducerLoop_dataProducers]
  exact cleanupTransport_dataProducers_eq (cleanupStreamId st c) c hdp

theorem cleanup_cleanup (st : ServerState) (c : String) :
    cleanup (cleanup st c) c = cleanup st c := by
  have hS : cleanupStreamId (cleanup st c) c = cleanup st c := by
    unfold cleanupStreamId
    rw [show sdel (cleanup st c).socketToStreamId c = (cleanup st c).socketToStreamId from by
      rw [cleanup_socketToStreamId, sdel_sdel_same]]
  have hCT : cleanupTransport (cleanup st c) c = cleanup st c := by
    unfold cleanupTransport
    rw [sget_cleanup_socketToTransport]
  have hPL : cleanupProducerLoop (cleanup st c) c = cleanup st c := by
    apply cleanupProducerLoop_eq_self
    show ∀ kv ∈ (cleanupProducerLoop (cleanupTransport (cleanupStreamId st c) c) c).producers, _
    exact cleanupProducerLoop_no_match _ c
  show cleanupProducerLoop (cleanupTransport (cleanupStreamId (cleanup st c) c) c) c = cleanup st c
  rw [hS, hCT, hPL]

/-! Claim theorems. -/

/-- Claim C10: the per-connection cleanup of MediasoupServer is
idempotent: for every directory state and every connection id, running
cleanup twice leaves the transports map, the socketToTransport map, the
socketToStreamId map and the producers map exactly as running it once. -/
theorem claim_cleanup_idempotent (st : ServerState) (c : String) :
    (cleanup (cleanup st c) c).transports = (cleanup st c).transports ∧
    (cleanup (cleanup st c) c).socketToTransport = (cleanup st c).socketToTransport ∧
    (cleanup (cleanup st c) c).socketToStreamId = (cleanup st c).socketToStreamId ∧
    (cleanup (cleanup st c) c).producers = (cleanup st c).producers := by
  rw [cleanup_cleanup]
  exact ⟨rfl, rfl, rfl, rfl⟩

/-- Witness for claim C10 at the concrete run: repeating the cleanup of
socket a changes nothing. -/
theorem claim_cleanup_idempotent_witness :
    (cleanup (cleanup stA2 "a") "a").transports = (cleanup stA2 "a").transports ∧
    (cleanup (cleanup stA2 "a") "a").socketToTransport = (cleanup stA2 "a").socketToTransport ∧
    (cleanup (cleanup stA2 "a") "a").socketToStreamId = (cleanup stA2 "a").socketToStreamId ∧
    (cleanup (cleanup stA2 "a") "a").producers = (cleanup stA2 "a").producers :=
  claim_cleanup_idempotent stA2 "a"

/-- Claim C3 counterexample: socket a creates transport T1, produces the
video producer P1, and the companion data producer D1 is registered under
chat key P1-data; a then disconnects.  The cleanup removes the producer
from the producer map, but the chat-key entry P1-data that references P1
is still present in the data-producer map afterwards, so the claimed
removal of chat-key entries does not happen. -/
theorem claim_cleanup_chatKey_counterexample :
    sget stA3.producers "P1" = none ∧
    getProducers stA3 = [] ∧
    sget stA3.dataProducers "P1-data" =
      some { id := "D1", transportId := "T1", label := "chat",
             protocol := "json", hasCloseListeners := false } := by decide

/-- Claim C3 (amended): after a connection disconnects, the cleanup
cascade closes and removes the transport currently mapped to the
connection and removes from the producer map every producer owned by that
transport; but the chat-key entries of the data-producer map are not
removed: since the automatically created chat data producers carry no
close listeners, the data-producer map is left exactly unchanged.  The
hypotheses state the two invariants of every state this program builds:
producer entries are keyed by their engine id, and registered data
producers have no close listeners attached. -/
theorem claim_cleanup_cascade_amended (st : ServerState) (c tid : String)
    (hkeys : ∀ kv ∈ st.producers, kv.1 = kv.2.id)
    (hdp : ∀ kv ∈ st.dataProducers, kv.2.hasCloseListeners = false)
    (h1 : sget st.socketToTransport c = some tid)
    (h2 : sget st.transports tid ≠ none) :
    sget ((handleDisconnect st c).1).socketToTransport c = none ∧
    sget ((handleDisconnect st c).1).socketToTransportId c = none ∧
    sget ((handleDisconnect st c).1).transports tid = none ∧
    (∀ kv ∈ ((handleDisconnect st c).1).producers, kv.2.transportId ≠ tid) ∧
    ((handleDisconnect st c).1).dataProducers = st.dataProducers := by
  refine ⟨?_, ?_, ?_, ?_, ?_⟩
  · exact sget_cleanup_socketToTransport _ c
  · show sget (cleanup { st with socketToTransportId := sdel st.socketToTransportId c } c).socketToTransportId c = none
    rw [cleanup_socketToTransportId]
    exact sget_sdel_same st.socketToTransportId c
  · exact cleanup_transports_none _ c tid h1
  · exact cleanup_producers_off _ c tid hkeys h1 h2
  · exact cleanup_dataProducers_eq _ c hdp

/-- Witness for the amended claim C3 at the concrete run: socket a with
transport T1 and producer P1. -/
theorem claim_cleanup_cascade_amended_witness :
    sget ((handleDisconnect stA2 "a").1).socketToTransport "a" = none ∧
    sget ((handleDisconnect stA2 "a").1).socketToTransportId "a" = none ∧
    sget ((handleDisconnect stA2 "a").1).transports "T1" = none ∧
    (∀ kv ∈ ((handleDisconnect stA2 "a").1).producers, kv.2.transportId ≠ "T1") ∧
    ((handleDisconnect stA2 "a").1).dataProducers = stA2.dataProducers :=
  claim_cleanup_cascade_amended stA2 "a" "T1" (by decide) (by decide) (by decide) (by decide)

/-- Claim C4 (failing-input evaluation): socket a disconnects while
holding the registered producer P1.  getProducers no longer lists P1
afterwards, but the disconnect handling emits no notification at all; in
particular no connection receives a producerClosed notification for P1,
and indeed no handler of the server ever constructs one. -/
theorem claim_disconnect_no_producerClosed :
    getProducers stA2 = [("P1", "video")] ∧
    getProducers (handleDisconnect stA2 "a").1 = [] ∧
    (handleDisconnect stA2 "a").2 = ([] : List Notif) := by decide

/-- Claim C1 (failing-input evaluation): socket c creates publish
transport T1, then subscribe transport T2.  The directory keeps a single
transport slot per connection, so the T1 mapping is evicted: both
socketToTransportId and socketToTransport now name T2, a subsequent
connectProducerTransport applies the DTLS parameters to T2, and a
subsequent produce attaches the new producer to T2.  T1 still exists in
the transports map but is no longer resolvable through the connection
directory. -/
theorem claim_consumer_transport_evicts_producer_transport :
    sget stC1.socketToTransportId "c" = some "T1" ∧
    sget stC2.socketToTransportId "c" = some "T2" ∧
    sget stC2.socketToTransport "c" = some "T2" ∧
    sget stC2.transports "T1" = some { id := "T1", sctpState := some "new" } ∧
    (handleConnectProducerTransport stC2 "c" true).2.2 = some "T2" ∧
    sget ((handleProduce stC2 "c" "video" (Except.ok "P9") (Except.error "nodata")).1).producers "P9"
      = some { id := "P9", kind := "video", transportId := "T2",
               appDataSocketId := none } := by decide

/-- Claim C2 (failing-input evaluation): the publisher sends the chat
message (A, hi, 1000) for its own stream P1.  The App appends it locally
once; the server chatMessage handler answers with a broadcastChatMessage
push to every connection, the sender included, and the publisher client
listener appends every broadcast unconditionally, so after the echo the
local list holds the message twice instead of exactly once. -/
theorem claim_sender_echo_duplicates :
    handleChatMessage stA2 "P1" { sender := "A", content := "hi", timestamp := 1000 } true
      = [ChatAction.broadcast "P1" { sender := "A", content := "hi", timestamp := 1000 },
         ChatAction.dataSend "P1-data"
           (serializeMessage { sender := "A", content := "hi", timestamp := 1000 })] ∧
    onBroadcastChatMessage
        (handleSendMessage [] { sender := "A", content := "hi", timestamp := 1000 })
        { sender := "A", content := "hi", timestamp := 1000 }
      = [{ sender := "A", content := "hi", timestamp := 1000 },
         { sender := "A", content := "hi", timestamp := 1000 }] := by decide

/-- Claim C6: a consume request naming a transport present in the
directory and a producer id absent from it returns the explicit error
payload Producer ... not found, and the server state is returned
unchanged, so the connection can keep issuing requests as before. -/
theorem claim_consume_unknown_producer (st : ServerState) (tid pid : String)
    (tr : Transport) (canCons : Bool) (cres : Except String String)
    (h1 : sget st.transports tid = some tr)
    (h2 : sget st.producers pid = none) :
    handleConsume st tid pid canCons cres
      = (st, Response.error ("Producer " ++ pid ++ " not found")) := by
  unfold handleConsume consume
  rw [h1]
  dsimp only
  rw [h2]

/-- Witness for claim C6: consuming the absent producer P7 over the live
transport T1 of the concrete run. -/
theorem claim_consume_unknown_producer_witness :
    handleConsume stA2 "T1" "P7" true (Except.ok "c1")
      = (stA2, Response.error ("Producer " ++ "P7" ++ " not found")) :=
  claim_consume_unknown_producer stA2 "T1" "P7"
    { id := "T1", sctpState := some "new" } true (Except.ok "c1") (by decide) (by decide)

/-- Claim C5: a consumeData request from a connection with a live
transport, asking for a chat key (an id of the form s-data) that has no
registered data producer, is answered with the fallback payload and never
with an error, and the state is unchanged.  The remaining conjuncts state
that the requesting client can still exchange chat over the broadcast
path afterwards: processing the fallback marks chat connected in the
viewer, every broadcast for the viewed stream is applied to the local
list, and any chatMessage the server receives for the stream is pushed to
every connection as the first delivery action. -/
theorem claim_consumeData_missing_chatKey_fallback (st : ServerState)
    (socketId s tid : String) (tr : Transport) (dcRes : Except String String)
    (h1 : sget st.socketToTransportId socketId = some tid)
    (h2 : sget st.transports tid = some tr)
    (h3 : sget st.dataProducers (s ++ "-data") = none) :
    handleConsumeData st socketId (s ++ "-data") dcRes = (st, Response.fallback) ∧
    (∀ vs : ViewerState, (setupDataConsumerApply vs Response.fallback).isChatConnected = true) ∧
    (∀ (vs : ViewerState) (m : ChatMessage),
       (viewerOnBroadcast vs s s m).messages = vs.messages ++ [m]) ∧
    (∀ (stx : ServerState) (m : ChatMessage) (ok : Bool),
       (handleChatMessage stx s m ok).head? = some (ChatAction.broadcast s m)) := by
  refine ⟨?_, fun vs => rfl, fun vs m => by simp [viewerOnBroadcast], fun stx m ok => rfl⟩
  unfold handleConsumeData
  rw [h1]
  dsimp only
  rw [h2]
  dsimp only
  rw [h3]
  dsimp only
  simp [strEndsWith_append]

/-- Witness for claim C5: the concrete run has a transport for socket a
and no data producer under the chat key S2-data. -/
theorem claim_consumeData_missing_chatKey_fallback_witness :
    handleConsumeData stA2 "a" ("S2" ++ "-data") (Except.ok "dc") = (stA2, Response.fallback) ∧
    (setupDataConsumerApply { messages := [], isChatConnected := false }
        Response.fallback).isChatConnected = true ∧
    (viewerOnBroadcast { messages := [], isChatConnected := true } "S2" "S2"
        { sender := "B", content := "yo", timestamp := 7 }).messages
      = [{ sender := "B", content := "yo", timestamp := 7 }] ∧
    (handleChatMessage stA2 "S2" { sender := "B", content := "yo", timestamp := 7 } true).head?
      = some (ChatAction.broadcast "S2" { sender := "B", content := "yo", timestamp := 7 }) := by
  have h := claim_consumeData_missing_chatKey_fallback stA2 "a" "S2" "T1"
    { id := "T1", sctpState := some "new" } (Except.ok "dc")
    (by decide) (by decide) (by decide)
  exact ⟨h.1, h.2.1 _, h.2.2.1 _ _, h.2.2.2 stA2 _ true⟩

/-- Claim C7: a successful produce of kind video yielding producer id
newPid always responds with that id, registers the producer, and
broadcasts exactly one newProducer notification, whatever the outcome of
the eager companion data producer attempt; and when SCTP is available and
the produceData engine call succeeds, the companion data producer is
registered under the chat key newPid-data on the same transport. -/
theorem claim_produce_video_data_best_effort (st : ServerState)
    (socketId tid newPid : String) (tr : Transport)
    (dataRes : Except String String)
    (h1 : sget st.socketToTransportId socketId = some tid)
    (h2 : sget st.socketToTransport socketId = some tid)
    (h3 : sget st.transports tid = some tr) :
    (handleProduce st socketId "video" (Except.ok newPid) dataRes).2.1
        = Response.producedId newPid ∧
    (handleProduce st socketId "video" (Except.ok newPid) dataRes).2.2
        = [Notif.newProducer newPid "video"] ∧
    sget (handleProduce st socketId "video" (Except.ok newPid) dataRes).1.producers newPid
        = some { id := newPid, kind := "video", transportId := tid,
                 appDataSocketId := none } ∧
    (∀ sctpSt engineDataId, tr.sctpState = some sctpSt → dataRes = Except.ok engineDataId →
       sget (handleProduce st socketId "video" (Except.ok newPid) dataRes).1.dataProducers
           (newPid ++ "-data")
         = some { id := engineDataId, transportId := tid, label := "chat",
                  protocol := "json", hasCloseListeners := false }) := by
  unfold handleProduce produce
  rw [h1]
  dsimp only
  rw [h2]
  dsimp only
  rw [h3]
  dsimp only
  rw [if_pos rfl]
  rw [h3]
  dsimp only
  refine ⟨rfl, rfl, ?_, ?_⟩
  · cases hsc : tr.sctpState with
    | none => exact sget_sset_same _ _ _
    | some sc =>
        cases hdr : dataRes with
        | error e => exact sget_sset_same _ _ _
        | ok d => exact sget_sset_same _ _ _
  · intro sctpSt engineDataId hsc hdr
    rw [hsc, hdr]
    dsimp only
    exact sget_sset_same _ _ _

/-- Witness for claim C7 at the concrete run: socket c produces P5 on
transport T2 with a successful data producer D5. -/
theorem claim_produce_video_data_best_effort_witness :
    (handleProduce stC2 "c" "video" (Except.ok "P5") (Except.ok "D5")).2.1
        = Response.producedId "P5" ∧
    (handleProduce stC2 "c" "video" (Except.ok "P5") (Except.ok "D5")).2.2
        = [Notif.newProducer "P5" "video"] ∧
    sget (handleProduce stC2 "c" "video" (Except.ok "P5") (Except.ok "D5")).1.dataProducers
        ("P5" ++ "-data")
      = some { id := "D5", transportId := "T2", label := "chat",
               protocol := "json", hasCloseListeners := false } := by
  have h := claim_produce_video_data_best_effort stC2 "c" "T2" "P5"
    { id := "T2", sctpState := some "new" } (Except.ok "D5")
    (by decide) (by decide) (by decide)
  exact ⟨h.1, h.2.1, h.2.2.2 "new" "D5" rfl rfl⟩

/-- Claim C8: for every state and every inbound chatMessage for stream s,
the first delivery action is always the broadcast to every connection
tagged with s; when no data producer is registered under s-data the
broadcast is the only action; when one is registered, a successful data
send appends the same serialized bytes after the broadcast, and a failed
data send leaves the broadcast in place, so the data path never
suppresses the control-channel push. -/
theorem claim_chatMessage_broadcast_first (st : ServerState) (s : String)
    (m : ChatMessage) (ok : Bool) :
    (handleChatMessage st s m ok).head? = some (ChatAction.broadcast s m) ∧
    ChatAction.broadcast s m ∈ handleChatMessage st s m ok ∧
    (sget st.dataProducers (s ++ "-data") = none →
       handleChatMessage st s m ok = [ChatAction.broadcast s m]) ∧
    (∀ dp, sget st.dataProducers (s ++ "-data") = some dp → ok = true →
       handleChatMessage st s m ok
         = [ChatAction.broadcast s m,
            ChatAction.dataSend (s ++ "-data") (serializeMessage m)]) ∧
    (∀ dp, sget st.dataProducers (s ++ "-data") = some dp → ok = false →
       handleChatMessage st s m ok = [ChatAction.broadcast s m]) := by
  refine ⟨rfl, List.mem_cons_self _ _, ?_, ?_, ?_⟩
  · intro h
    unfold handleChatMessage
    rw [h]
  · intro dp h hok
    unfold handleChatMessage
    rw [h, hok]
    rfl
  · intro dp h hok
    unfold handleChatMessage
    rw [h, hok]
    rfl

/-- Witness for claim C8: concrete sends on the run with and without a
registered chat data producer. -/
theorem claim_chatMessage_broadcast_first_witness :
    (handleChatMessage stA2 "P1" { sender := "B", content := "hello", timestamp := 2000 } true).head?
      = some (ChatAction.broadcast "P1" { sender := "B", content := "hello", timestamp := 2000 }) ∧
    handleChatMessage stA2 "P1" { sender := "B", content := "hello", timestamp := 2000 } false
      = [ChatAction.broadcast "P1" { sender := "B", content := "hello", timestamp := 2000 }] ∧
    handleChatMessage stA2 "NOKEY" { sender := "B", content := "hello", timestamp := 2000 } true
      = [ChatAction.broadcast "NOKEY" { sender := "B", content := "hello", timestamp := 2000 }] := by
  refine ⟨(claim_chatMessage_broadcast_first stA2 "P1" _ true).1, ?_, ?_⟩
  · exact (claim_chatMessage_broadcast_first stA2 "P1" _ false).2.2.2.2
      { id := "D1", transportId := "T1", label := "chat", protocol := "json",
        hasCloseListeners := false } (by decide) rfl
  · exact (claim_chatMessage_broadcast_first stA2 "NOKEY" _ true).2.2.1 (by decide)

/-- Claim C9: a consumeData answer is the fallback payload only when the
requested id ends in -data; and when the requested id is absent from the
data-producer map and does not end in -data, the answer is an error
payload, never the fallback. -/
theorem claim_consumeData_fallback_only_chatKeys (st : ServerState)
    (socketId key : String) (dcRes : Except String String) :
    ((handleConsumeData st socketId key dcRes).2 = Response.fallback →
       strEndsWith key "-data" = true) ∧
    (sget st.dataProducers key = none → strEndsWith key "-data" = false →
       ∃ msg, (handleConsumeData st socketId key dcRes).2 = Response.error msg) := by
  unfold handleConsumeData
  cases hA : sget st.socketToTransportId socketId with
  | none =>
      dsimp only
      exact ⟨fun h => absurd h (by simp), fun _ _ => ⟨_, rfl⟩⟩
  | some tid =>
      dsimp only
      cases hB : sget st.transports tid with
      | none =>
          dsimp only
          exact ⟨fun h => absurd h (by simp), fun _ _ => ⟨_, rfl⟩⟩
      | some tr =>
          dsimp only
          cases hC : sget st.dataProducers key with
          | none =>
              dsimp only
              by_cases hE : strEndsWith key "-data" = true
              · refine ⟨fun _ => hE, fun _ hF => ?_⟩
                rw [hE] at hF
                cases hF
              · have hF : strEndsWith key "-data" = false := by
                  cases hv : strEndsWith key "-data"
                  · rfl
                  · exact absurd hv hE
                refine ⟨fun h => absurd h ?_,
                        fun _ _ => ⟨"Data producer " ++ key ++ " not found", ?_⟩⟩
                · simp [hF]
                · simp [hF]
          | some dp =>
              dsimp only
              cases dcRes with
              | error e =>
                  refine ⟨fun h => absurd h (by simp), fun hnone _ => ?_⟩
                  cases hnone
              | ok dcid =>
                  refine ⟨fun h => absurd h (by simp), fun hnone _ => ?_⟩
                  cases hnone

/-- Witness for claim C9: a fallback answer for the chat-shaped id
NOPE-data implies the suffix, and the absent non-chat id NOPE gets an
error payload on the concrete run. -/
theorem claim_consumeData_fallback_only_chatKeys_witness :
    strEndsWith "NOPE-data" "-data" = true ∧
    (∃ msg, (handleConsumeData stA2 "a" "NOPE" (Except.error "x")).2
        = Response.error msg) := by
  refine ⟨?_, ?_⟩
  · exact (claim_consumeData_fallback_only_chatKeys stA2 "a" "NOPE-data"
      (Except.error "x")).1 (by decide)
  · exact (claim_consumeData_fallback_only_chatKeys stA2 "a" "NOPE"
      (Except.error "x")).2 (by decide) (by decide)

end StudyReel
